import Mathlib

/-!
Shallow embedding of the `genertobs_unstable/_writers.py` module of subscript and of
the observation-merge logic of `merge_rft_ertobs`, together with proofs of the spec
claims about them.  File effects are modelled as a chronological write log of
path/content pairs; the ambient user name and clock reading consumed by
`add_time_stamp` are threaded explicitly through an `Env` record.
-/

/-- A written file: its path together with its content. -/
structure NamedFile where
  path : String
  content : String
deriving Repr, DecidableEq

/-- Overwrite-or-add semantics of writing one file into a directory listing. -/
def putFile (fs : List NamedFile) (f : NamedFile) : List NamedFile :=
  (fs.filter (fun g => !(g.path == f.path))) ++ [f]

/-- Directory contents after replaying a chronological write log onto an empty,
freshly made directory. -/
def apply_writes (ws : List NamedFile) : List NamedFile :=
  ws.foldl putFile []

/-- Concatenation of a list of strings (used to state how per-well fragments are
accumulated by the writer loops). -/
def concat_strs : List String → String
  | [] => ""
  | s :: rest => s ++ concat_strs rest

/-- Worker for `collapse_spaces`: the boolean records whether the previous kept
character was a blank. -/
def collapse_go : Bool → List Char → List Char
  | _, [] => []
  | prevSpace, c :: rest =>
    if c = ' ' then
      if prevSpace then collapse_go true rest
      else ' ' :: collapse_go true rest
    else c :: collapse_go false rest

/-- The effect of the `re.sub` of one-or-more blanks by a single blank performed by
`write_timeseries_ertobs`: every run of blanks collapses to one blank. -/
def collapse_spaces (s : String) : String :=
  String.mk (collapse_go false s.data)

/-- Ambient user name and clock reading read by `add_time_stamp`. -/
structure Env where
  user : String
  ctime : String
deriving Repr, DecidableEq

/-- `add_time_stamp`: prepend the commented autogeneration banner to a string. -/
def add_time_stamp (env : Env) (string : String) (record_type : String)
    (comment_mark : String) : String :=
  let type_str := if record_type = "f" then "file" else "folder"
  comment_mark ++ "This " ++ type_str ++ " is autogenerated by " ++ env.user ++
    " running genertobs_unstable at " ++ env.ctime ++ "\n" ++
    comment_mark ++ " DO NOT EDIT THIS " ++ type_str.toUpper ++ " MANUALLY!\n" ++ string

/-- Body of `write_csv_with_comment`: `frame.to_csv(stream, index=False, header=False,
sep=" ")`, i.e. each row's fields joined by one blank, each row ended by a newline.
The function returns the produced file content; callers pair it with the path. -/
def write_csv_with_comment (frame : List (List String)) : String :=
  String.join (frame.map (fun row => String.intercalate " " row ++ "\n"))

/-- One row of a timeseries (summary) observation frame: label, value, error, date. -/
structure SummaryRow where
  label : String
  value : Int
  error : Int
  date : String
deriving Repr, DecidableEq

/-- One element of a summary observation's data list: the ert vector name and rows. -/
structure SummaryElement where
  vector : String
  data : List SummaryRow
deriving Repr, DecidableEq

/-- One row of an rft observation frame: measurement and position columns. -/
structure RftRow where
  value : Int
  error : Int
  x : Int
  y : Int
  md : Int
  tvd : Int
  zone : String
deriving Repr, DecidableEq

/-- One rft element: one well with date, restart number and measured rows. -/
structure RftElement where
  well_name : String
  date : String
  restart : Nat
  data : List RftRow
deriving Repr, DecidableEq

/-- Access to the numeric measurement column carrying the inactive sentinel. -/
class HasValue (α : Type) where
  value : α → Int

instance : HasValue SummaryRow := ⟨SummaryRow.value⟩

instance : HasValue RftRow := ⟨RftRow.value⟩

/-- Modelled from the spec: `inactivate_rows` of `_utilities.py` is not among the
sources.  The spec describes it as a pure per-row filter dropping the measurements
marked with the numeric inactive sentinel (-1) in the value column. -/
def inactivate_rows [HasValue α] (rows : List α) : List α :=
  rows.filter (fun r => !(HasValue.value r == -1))

/-- Modelled from the spec: `check_and_fix_str` of `_utilities.py` is not among the
sources and the spec does not constrain the well-name sanitizing, so it is modelled
as the identity on names. -/
def check_and_fix_str (s : String) : String := s

/-- The fields of one formatted `SUMMARY_OBSERVATION` row, in the column order
class, label, value, error, date, key used by `write_timeseries_ertobs`. -/
def summary_row_fields (key : String) (row : SummaryRow) : List String :=
  ["SUMMARY_OBSERVATION", row.label,
   "\x7bVALUE=" ++ toString row.value ++ ";",
   "ERROR=" ++ toString row.error ++ ";",
   "DATE=" ++ row.date ++ ";",
   "KEY=" ++ key ++ ";\x7d;"]

/-- Rendering of `pd.concat(obs_frames).to_string(header=False, index=False)`: the
rows printed one per line (the caller's blank-collapsing regex reduces the column
padding to single blanks); a concatenation holding no row at all prints pandas'
empty-frame banner. -/
def frames_to_string (rows : List (List String)) : String :=
  if rows.isEmpty then
    "Empty DataFrame\nColumns: [class, label, value, error, date, key]\nIndex: []"
  else String.intercalate "\n" (rows.map (fun row => String.intercalate " " row))

/-- `write_timeseries_ertobs`: per element, the inactive rows are filtered out and the
remaining rows formatted as `SUMMARY_OBSERVATION` declarations; `pd.concat` raises on
an empty element list. -/
def write_timeseries_ertobs (obs_dict : List SummaryElement) : Except String String :=
  if obs_dict.isEmpty then .error "ValueError: No objects to concatenate"
  else
    let rows := obs_dict.flatMap (fun element =>
      (inactivate_rows element.data).map (summary_row_fields element.vector))
    .ok (collapse_spaces (frames_to_string rows) ++ "\n")

/-- `create_rft_ertobs_str`: the GENERAL_OBSERVATION declaration for one well. -/
def create_rft_ertobs_str (element : RftElement) (pfx : String) (obs_file : String) :
    String :=
  "GENERAL_OBSERVATION " ++ element.well_name ++ "_" ++ pfx ++ "_OBS " ++
    "\x7b" ++ "DATA=" ++ element.well_name ++ "_" ++ pfx ++ "_SIM;" ++
    " RESTART = " ++ toString element.restart ++ "; " ++
    "OBS_FILE = " ++ obs_file ++ ";\x7d;\n"

/-- `create_rft_gendata_str`: the GEN_DATA declaration for one well; the separator in
the result-file name drops the prefix exactly when the prefix is PRESSURE. -/
def create_rft_gendata_str (element : RftElement) (pfx : String)
    (outfolder_name : String) : String :=
  let separator_string := if pfx = "PRESSURE" then "_" else "_" ++ pfx ++ "_"
  "GEN_DATA " ++ element.well_name ++ "_" ++ pfx ++ "_SIM " ++
    "RESULT_FILE:" ++ outfolder_name ++ "/RFT" ++ separator_string ++
    element.well_name ++ "_%d" ++
    " REPORT_STEPS:" ++ toString element.restart ++ "\n"

/-- The module-level GENDATA_RFT banner constant. -/
def GENDATA_RFT_EXPLAINER : String :=
  "-------------------------\n-- GENDATA_RFT  -- Create files with simulated rft pressure\n-------------------------\n-- ERT doc: https://fmu-docs.equinor.com/docs/ert/reference/forward_models.html#GENDATA_RFT\n\n"

/-- The module-level GEN_DATA banner constant. -/
def GENDATA_EXPLAINER : String :=
  "-------------------------\n-- GEN_DATA  -- Create GEN_DATA of rft for usage in AHM\n-------------------------\n-- ERT doc: https://fmu-docs.equinor.com/docs/ert/reference/configuration/keywords.html#gen-data\n\n--       ert id       Result file name           input format         report step\n"

/-- `write_genrft_str`: the GENDATA_RFT forward-model call string. -/
def write_genrft_str (parent : String) (well_date_path : String)
    (layer_zone_table : String) (outfolder_name : String) : String :=
  GENDATA_RFT_EXPLAINER ++ "DEFINE <RFT_INPUT> " ++ parent ++ "\n" ++
    "FORWARD_MODEL MAKE_DIRECTORY(<DIRECTORY>=" ++ outfolder_name ++ ")\n" ++
    "FORWARD_MODEL GENDATA_RFT(<PATH_TO_TRAJECTORY_FILES>=<RFT_INPUT>," ++
    "<WELL_AND_TIME_FILE>=<RFT_INPUT>/" ++ (well_date_path.replace parent "") ++
    "," ++ "<ZONEMAP>=" ++ layer_zone_table ++ ", <OUTPUTDIRECTORY>=" ++
    outfolder_name ++ ")\n\n"

/-- The observation-file path chosen by `write_well_rft_files` for one well. -/
def rft_obs_file_path (parent_folder : String) (pfx : String) (element : RftElement) :
    String :=
  parent_folder ++ "/" ++ pfx.toLower ++ "_" ++ check_and_fix_str element.well_name ++
    ".obs"

/-- The position-file path chosen by `write_well_rft_files` for one well. -/
def rft_position_file_path (parent_folder : String) (element : RftElement) : String :=
  parent_folder ++ "/" ++ check_and_fix_str element.well_name ++ ".txt"

/-- `write_well_rft_files`: filters the well frame, returns `none` and writes nothing
when it comes out empty, otherwise writes the `.obs` value/error file and the `.txt`
position file and returns the observation-file path. -/
def write_well_rft_files (parent_folder : String) (pfx : String)
    (element : RftElement) : Option String × List NamedFile :=
  let well_frame := inactivate_rows element.data
  if well_frame.isEmpty then (none, [])
  else
    let obs_file := rft_obs_file_path parent_folder pfx element
    let position_file := rft_position_file_path parent_folder element
    let obs_frame := well_frame.map (fun r => [toString r.value, toString r.error])
    let position_frame := well_frame.map (fun r =>
      [toString r.x, toString r.y, toString r.md, toString r.tvd, r.zone])
    (some obs_file,
      [⟨obs_file, write_csv_with_comment obs_frame⟩,
       ⟨position_file, write_csv_with_comment position_frame⟩])

/-- The rft observation dictionary: the subtype name of its config metadata (the
prefix) together with the per-well data elements. -/
structure RftDict where
  subtype_name : String
  elements : List RftElement
deriving Repr, DecidableEq

/-- One iteration of the loop of `write_rft_ertobs`: a well whose observation file was
written contributes a well/date/restart row, a GENERAL_OBSERVATION fragment, a
GEN_DATA fragment and its written files; a skipped well contributes nothing. -/
def write_rft_ertobs_step (rft_folder : String) (pfx : String) (outfolder_name : String)
    (acc : List (List String) × String × String × List NamedFile)
    (element : RftElement) : List (List String) × String × String × List NamedFile :=
  match write_well_rft_files rft_folder pfx element with
  | (some obs_file, written) =>
    (acc.1 ++ [[element.well_name, element.date, toString element.restart]],
     acc.2.1 ++ create_rft_ertobs_str element pfx obs_file,
     acc.2.2.1 ++ create_rft_gendata_str element pfx outfolder_name,
     acc.2.2.2 ++ written)
  | (none, _) => acc

/-- `write_rft_ertobs`: loops over the wells, then writes the well/date/restart table
to the well-date file; returns the GENERAL_OBSERVATION string, the GEN_DATA string
and the chronological write log. -/
def write_rft_ertobs (rft_dict : RftDict) (well_date_file : String)
    (parent_folder : String) : String × String × List NamedFile :=
  let rft_folder := parent_folder ++ "/rft"
  let outfolder_name := "gendata_rft"
  let folded := rft_dict.elements.foldl
    (write_rft_ertobs_step rft_folder rft_dict.subtype_name outfolder_name)
    ([], "", "", [])
  (folded.2.1, folded.2.2.1,
    folded.2.2.2 ++ [⟨well_date_file, write_csv_with_comment folded.1⟩])

/-- Modelled from the spec: the `ObservationType` enum of `_datatypes.py` is not among
the sources.  The spec names summary timeseries and rft as the supported types and
says further, unsupported types exist; one representative OTHER stands for those. -/
inductive ObservationType where
  | SUMMARY
  | RFT
  | OTHER
deriving Repr, DecidableEq

/-- The data payload attached to an observation entry. -/
inductive ObsPayload where
  | summary (elements : List SummaryElement)
  | rft (elements : List RftElement)
  | other
deriving Repr, DecidableEq

/-- One entry of the observation list fed to `write_dict_to_ertobs`: its config name,
config type, subtype name, zonemap plugin argument and data payload. -/
structure Observation where
  name : String
  cfg_type : ObservationType
  subtype_name : String
  zonemap : String
  payload : ObsPayload
deriving Repr, DecidableEq

/-- The loop state of `write_dict_to_ertobs`. -/
structure ErtobsState where
  obs_str : String
  gen_data : String
  gendata_rft_str : String
  files : List NamedFile
deriving Repr, DecidableEq

/-- One iteration of the loop of `write_dict_to_ertobs` over the observation list:
the config-name comment header is always appended, then summary and rft entries are
dispatched and every other config type is skipped with only a logged warning. -/
def ertobs_step (parent : String) (st : ErtobsState) (obs : Observation) :
    Except String ErtobsState :=
  let st := { st with obs_str := st.obs_str ++ "--\n--" ++ obs.name ++ "\n" }
  match obs.cfg_type with
  | .SUMMARY =>
    match obs.payload with
    | .summary elements =>
      (write_timeseries_ertobs elements).map
        (fun s => { st with obs_str := st.obs_str ++ s })
    | _ => .error "AttributeError: summary observation without timeseries data"
  | .RFT =>
    match obs.payload with
    | .rft elements =>
      let well_date_file_name := parent ++ "/rft/well_date_restart.txt"
      let gendata_rft_str :=
        if st.gendata_rft_str = "" then
          write_genrft_str (parent ++ "/rft") well_date_file_name obs.zonemap
            "gendata_rft"
        else st.gendata_rft_str
      let folded := write_rft_ertobs ⟨obs.subtype_name, elements⟩ well_date_file_name
        parent
      .ok { obs_str := st.obs_str ++ folded.1,
            gen_data := st.gen_data ++ folded.2.1,
            gendata_rft_str := gendata_rft_str,
            files := st.files ++ folded.2.2 }
    | _ => .error "AttributeError: rft observation without well data"
  | .OTHER => .ok st

/-- `write_dict_to_ertobs`: deletes any prior contents of the destination directory
(`pre`, `rmtree` plus `mkdir`), writes the readme, loops over the observation list,
writes the collected observation string and, when any GEN_DATA was produced, the gen
data file; returns the chronological write log and the observation string. -/
def write_dict_to_ertobs (env : Env) (parent : String) (pre : Option (List NamedFile))
    (obs_list : List Observation) : Except String (List NamedFile × String) :=
  let cleared : List NamedFile :=
    match pre with
    | some _ => []
    | none => []
  let files0 := cleared ++ [⟨parent ++ "/readme.txt", add_time_stamp env "" "d" "--"⟩]
  let init : ErtobsState := ⟨add_time_stamp env "" "f" "--", "", "", files0⟩
  (obs_list.foldlM (ertobs_step parent) init).map (fun st =>
    let files1 := st.files ++ [⟨parent ++ "/ert_observations.obs", st.obs_str⟩]
    let files2 :=
      if st.gen_data = "" then files1
      else files1 ++ [⟨parent ++ "/gen_data_rft_wells.ert",
        add_time_stamp env (st.gendata_rft_str ++ GENDATA_EXPLAINER ++ st.gen_data)
          "f" "--"⟩]
    (files2, st.obs_str))

/-- Worker for `split_lines`: cut a character list at every newline. -/
def split_lines_go : List Char → List Char → List String
  | [], acc => [String.mk acc.reverse]
  | c :: rest, acc =>
    if c = '\n' then String.mk acc.reverse :: split_lines_go rest []
    else split_lines_go rest (c :: acc)

/-- Split a file content into its lines. -/
def split_lines (s : String) : List String :=
  split_lines_go s.data []

/-- Worker for `split_ws`: cut a character list at whitespace, dropping the empty
pieces. -/
def split_ws_go : List Char → List Char → List String
  | [], acc => if acc.isEmpty then [] else [String.mk acc.reverse]
  | c :: rest, acc =>
    if c.isWhitespace then
      if acc.isEmpty then split_ws_go rest []
      else String.mk acc.reverse :: split_ws_go rest []
    else split_ws_go rest (c :: acc)

/-- Split a line into its whitespace-separated tokens. -/
def split_ws (s : String) : List String :=
  split_ws_go s.data []

/-- A non-empty all-digit character list read as a decimal numeral. -/
def parse_nat_digits (cs : List Char) : Option Nat :=
  if cs.isEmpty then none
  else if cs.all (fun c => c.isDigit) then
    some (cs.foldl (fun n c => 10 * n + (c.toNat - '0'.toNat)) 0)
  else none

/-- Modelled from the spec: the `merge_rft_ertobs` module is not among the sources
(only its tests are).  A numeric token of an observation line: an optionally negated
decimal numeral. -/
def parse_number (s : String) : Option Int :=
  match s.data with
  | '-' :: rest => (parse_nat_digits rest).map (fun n => -(n : Int))
  | _ => (parse_nat_digits s.data).map (fun n => (n : Int))

/-- Modelled from the spec: one line of a `.obs` file parses exactly when its first
two whitespace-separated tokens are numeric (value then error); extra columns are
ignored and any other line yields no row. -/
def parse_obs_line (line : String) : Option (Int × Int) :=
  match split_ws line with
  | v :: e :: _ =>
    match parse_number v, parse_number e with
    | some value, some error => some (value, error)
    | _, _ => none
  | _ => none

/-- Modelled from the spec: per `.obs` file, `get_observations` collects one row per
parsable line and no row for the rest, never raising. -/
def get_observations_content (content : String) : List (Int × Int) :=
  (split_lines content).filterMap parse_obs_line

/-- One `.obs` file of the observation directory: the well name carried by the file
name and the file content. -/
structure ObsFile where
  well : String
  content : String
deriving Repr, DecidableEq

/-- One observed row as collected from the observation directory. -/
structure ObservedRow where
  well : String
  order : Nat
  observed : Int
  error : Int
deriving Repr, DecidableEq

/-- Modelled from the spec: the observed rows of a directory of `.obs` files; the
well name comes from the file name and the order is the row's index in its file. -/
def get_observations (files : List ObsFile) : List ObservedRow :=
  files.flatMap (fun f =>
    ((get_observations_content f.content).enum).map (fun ie =>
      ⟨f.well, ie.1, ie.2.1, ie.2.2⟩))

/-- One simulated rft result row: well, report-step order, time and pressure. -/
structure SimRow where
  well : String
  order : Nat
  time : String
  pressure : Int
deriving Repr, DecidableEq

/-- One merged comparison row: well, time, nullable simulated pressure, observed
value and error. -/
structure MergedRow where
  well : String
  time : Option String
  pressure : Option Int
  observed : Int
  error : Int
deriving Repr, DecidableEq

/-- Modelled from the spec: `merge_rft_ertobs` joins simulated pressures to the
observations by (well, order) with a left join keeping every observed row; a
simulated pressure carrying the inactive sentinel -1 becomes null. -/
def merge_rft_ertobs (sim : List SimRow) (obs : List ObservedRow) : List MergedRow :=
  obs.map (fun o =>
    match sim.find? (fun s => s.well == o.well && s.order == o.order) with
    | some s =>
      ⟨o.well, some s.time,
       if s.pressure == -1 then none else some s.pressure, o.observed, o.error⟩
    | none => ⟨o.well, none, none, o.observed, o.error⟩)

/-- The well/date/restart table row contributed by one rft element. -/
def well_date_row (element : RftElement) : List String :=
  [element.well_name, element.date, toString element.restart]

/-- The wells of an rft loop whose observation file gets written, i.e. those for
which `write_well_rft_files` returns a path. -/
def kept_elements (rft_folder : String) (pfx : String) (els : List RftElement) :
    List RftElement :=
  els.filter (fun e => ((write_well_rft_files rft_folder pfx e).1).isSome)

/-- The path components of a writer result. -/
def result_paths (r : Except String (List NamedFile × String)) :
    Except String (List String) :=
  r.map (fun p => p.1.map (fun f => f.path))

/-- A sample active rft measurement row. -/
def rowActive : RftRow := ⟨220, 3, 1, 2, 3, 4, "Zone1"⟩

/-- A sample rft measurement row carrying the inactive sentinel. -/
def rowInactive : RftRow := ⟨-1, 3, 1, 2, 3, 4, "Zone1"⟩

/-- A sample well with one active measurement. -/
def wellA : RftElement := ⟨"A-1", "2020-01-01", 0, [rowActive]⟩

/-- A sample well all of whose measurements are inactive. -/
def wellEmpty : RftElement := ⟨"A-2", "2020-02-01", 1, [rowInactive]⟩

/-- A sample active summary row. -/
def srowActive : SummaryRow := ⟨"FOPR-L", 400, 20, "2020-01-01"⟩

/-- A sample summary row carrying the inactive sentinel. -/
def srowInactive : SummaryRow := ⟨"FOPR-M", -1, 20, "2020-02-01"⟩

/-- A sample environment for the timestamp banner. -/
def envC : Env := ⟨"usr", "2024-01-01:00:00:00"⟩

/-- A sample unsupported observation entry. -/
def obsOtherC : Observation := ⟨"seismic_amplitudes", .OTHER, "", "", .other⟩

/-- A sample loop state. -/
def stC : ErtobsState := ⟨"S", "G", "R", []⟩

/-- Unfolding of the value projection for rft rows. -/
theorem value_rft (r : RftRow) : HasValue.value r = r.value := rfl

/-- Unfolding of the value projection for summary rows. -/
theorem value_summary (r : SummaryRow) : HasValue.value r = r.value := rfl

/-- Filtering distributes over surrounding an inactive rft row. -/
theorem inactivate_rows_middle_rft (pre post : List RftRow) (r : RftRow)
    (h : r.value = -1) :
    inactivate_rows (pre ++ r :: post) = inactivate_rows (pre ++ post) := by
  simp [inactivate_rows, List.filter_append, List.filter_cons, value_rft, h]

/-- Filtering distributes over surrounding an inactive summary row. -/
theorem inactivate_rows_middle_summary (pre post : List SummaryRow) (r : SummaryRow)
    (h : r.value = -1) :
    inactivate_rows (pre ++ r :: post) = inactivate_rows (pre ++ post) := by
  simp [inactivate_rows, List.filter_append, List.filter_cons, value_summary, h]

/-- C7: for every rft element, prefix and observation-file path,
`create_rft_ertobs_str` returns exactly one newline-terminated GENERAL_OBSERVATION
declaration, and its observation identifier (`_OBS`) and its DATA identifier
(`_SIM`) are built from one shared base, the well name followed by the prefix. -/
theorem C7_general_observation_shape (element : RftElement) (pfx : String)
    (obs_file : String) :
    ∃ base, base = element.well_name ++ "_" ++ pfx ∧
      create_rft_ertobs_str element pfx obs_file =
        "GENERAL_OBSERVATION " ++ base ++ "_OBS \x7bDATA=" ++ base ++
          "_SIM; RESTART = " ++ toString element.restart ++ "; OBS_FILE = " ++
          obs_file ++ ";\x7d;\n" := by
  refine ⟨element.well_name ++ "_" ++ pfx, rfl, ?_⟩
  simp [create_rft_ertobs_str, String.append_assoc]

/-- C10: `create_rft_gendata_str` names the RESULT_FILE `<outfolder>/RFT_<well>_%d`
exactly when the prefix is PRESSURE and `<outfolder>/RFT_<prefix>_<well>_%d` for
every other prefix, so the prefix is omitted from the file name only in the
PRESSURE case. -/
theorem C10_gendata_result_file_prefix (element : RftElement) (pfx : String)
    (outfolder_name : String) :
    create_rft_gendata_str element pfx outfolder_name =
      "GEN_DATA " ++ element.well_name ++ "_" ++ pfx ++ "_SIM RESULT_FILE:" ++
        outfolder_name ++
        (if pfx = "PRESSURE" then "/RFT_" ++ element.well_name ++ "_%d"
         else "/RFT_" ++ pfx ++ "_" ++ element.well_name ++ "_%d") ++
        " REPORT_STEPS:" ++ toString element.restart ++ "\n" := by
  by_cases h : pfx = "PRESSURE"
  · simp [create_rft_gendata_str, h, String.append_assoc]
  · have hlit : ∀ x : String, ("/RFT" : String) ++ ("_" ++ x) = "/RFT_" ++ x := by
      intro x
      rw [← String.append_assoc]
      rfl
    simp [create_rft_gendata_str, h, String.append_assoc, hlit]

/-- C6: for every well element that is non-empty after inactive-row filtering,
`write_well_rft_files` writes exactly two files: the `.obs` file holding precisely
the value and error columns of the filtered frame as blank-separated pairs without
header or index, and the `.txt` position file holding precisely the x, y, md, tvd,
zone columns in that order, also blank-separated without header or index. -/
theorem C6_well_files_content (parent_folder : String) (pfx : String)
    (element : RftElement)
    (h : (inactivate_rows element.data).isEmpty = false) :
    write_well_rft_files parent_folder pfx element =
      (some (rft_obs_file_path parent_folder pfx element),
       [⟨rft_obs_file_path parent_folder pfx element,
         write_csv_with_comment ((inactivate_rows element.data).map
           (fun r => [toString r.value, toString r.error]))⟩,
        ⟨rft_position_file_path parent_folder element,
         write_csv_with_comment ((inactivate_rows element.data).map
           (fun r => [toString r.x, toString r.y, toString r.md, toString r.tvd,
             r.zone]))⟩]) := by
  simp [write_well_rft_files, h]

/-- Witness for C6 at a concrete well with one active row. -/
theorem C6_well_files_content_witness :
    (inactivate_rows wellA.data).isEmpty = false ∧
    write_well_rft_files "parent" "PRESSURE" wellA =
      (some (rft_obs_file_path "parent" "PRESSURE" wellA),
       [⟨rft_obs_file_path "parent" "PRESSURE" wellA,
         write_csv_with_comment ((inactivate_rows wellA.data).map
           (fun r => [toString r.value, toString r.error]))⟩,
        ⟨rft_position_file_path "parent" wellA,
         write_csv_with_comment ((inactivate_rows wellA.data).map
           (fun r => [toString r.x, toString r.y, toString r.md, toString r.tvd,
             r.zone]))⟩]) :=
  ⟨rfl, C6_well_files_content "parent" "PRESSURE" wellA rfl⟩

/-- C2: a well whose frame is empty after inactive-row filtering yields `none` and
no written file from `write_well_rft_files`, and `write_rft_ertobs` then skips the
well entirely: removing it from the element list changes nothing, so it appears in
neither the well/date/restart table, the GENERAL_OBSERVATION string, the GEN_DATA
string nor the write log. -/
theorem C2_empty_well_skipped :
    (∀ (parent_folder pfx : String) (element : RftElement),
        (inactivate_rows element.data).isEmpty = true →
        write_well_rft_files parent_folder pfx element = (none, [])) ∧
    (∀ (pfx wdf parent : String) (l1 l2 : List RftElement) (element : RftElement),
        (inactivate_rows element.data).isEmpty = true →
        write_rft_ertobs ⟨pfx, l1 ++ element :: l2⟩ wdf parent =
          write_rft_ertobs ⟨pfx, l1 ++ l2⟩ wdf parent) := by
  constructor
  · intro parent_folder pfx element h
    simp [write_well_rft_files, h]
  · intro pfx wdf parent l1 l2 element h
    have hnone : write_well_rft_files (parent ++ "/rft") pfx element = (none, []) := by
      simp [write_well_rft_files, h]
    have hstep : ∀ acc,
        write_rft_ertobs_step (parent ++ "/rft") pfx "gendata_rft" acc element
          = acc := by
      intro acc
      simp [write_rft_ertobs_step, hnone]
    simp [write_rft_ertobs, List.foldl_append, hstep]

/-- Witness for C2 at a concrete all-inactive well inserted before an active one. -/
theorem C2_empty_well_skipped_witness :
    (inactivate_rows wellEmpty.data).isEmpty = true ∧
    write_rft_ertobs ⟨"PRESSURE", [wellEmpty, wellA]⟩ "wdf" "par" =
      write_rft_ertobs ⟨"PRESSURE", [wellA]⟩ "wdf" "par" :=
  ⟨rfl, C2_empty_well_skipped.2 "PRESSURE" "wdf" "par" [] [wellA] wellEmpty rfl⟩

/-- C3: inactive-measurement exclusion is a pure per-row filter applied before any
formatting: inserting a sentinel-carrying row anywhere in an element's data changes
neither the output of `write_timeseries_ertobs` nor that of `write_well_rft_files`,
and membership in the filtered frame depends only on the row's own values. -/
theorem C3_inactive_row_pure_filter :
    (∀ (els1 els2 : List SummaryElement) (vec : String)
        (pre post : List SummaryRow) (r : SummaryRow), r.value = -1 →
        write_timeseries_ertobs (els1 ++ ⟨vec, pre ++ r :: post⟩ :: els2) =
          write_timeseries_ertobs (els1 ++ ⟨vec, pre ++ post⟩ :: els2)) ∧
    (∀ (parent_folder pfx well date : String) (restart : Nat)
        (pre post : List RftRow) (r : RftRow), r.value = -1 →
        write_well_rft_files parent_folder pfx ⟨well, date, restart, pre ++ r :: post⟩
          = write_well_rft_files parent_folder pfx ⟨well, date, restart, pre ++ post⟩)
    ∧
    (∀ (l : List RftRow) (r : RftRow),
        r ∈ inactivate_rows l ↔ r ∈ l ∧ r.value ≠ -1) := by
  refine ⟨?_, ?_, ?_⟩
  · intro els1 els2 vec pre post r h
    have hfilter := inactivate_rows_middle_summary pre post r h
    simp [write_timeseries_ertobs, hfilter]
  · intro parent_folder pfx well date restart pre post r h
    have hfilter := inactivate_rows_middle_rft pre post r h
    simp [write_well_rft_files, hfilter, rft_obs_file_path, rft_position_file_path]
  · intro l r
    simp [inactivate_rows, List.mem_filter, value_rft]

/-- Witness for C3 at a concrete element with one inactive and one active row. -/
theorem C3_inactive_row_pure_filter_witness :
    srowInactive.value = -1 ∧
    write_timeseries_ertobs [⟨"FOPR", [srowInactive, srowActive]⟩] =
      write_timeseries_ertobs [⟨"FOPR", [srowActive]⟩] :=
  ⟨rfl, C3_inactive_row_pure_filter.1 [] [] "FOPR" [] [srowActive] srowInactive rfl⟩

/-- Accumulator characterization of the rft loop: folding the per-well step extends
each component of the accumulator by exactly the kept wells' contribution. -/
theorem write_rft_ertobs_foldl (rf pfx out : String) (els : List RftElement)
    (acc : List (List String) × String × String × List NamedFile) :
    els.foldl (write_rft_ertobs_step rf pfx out) acc =
      (acc.1 ++ (kept_elements rf pfx els).map well_date_row,
       acc.2.1 ++ concat_strs ((kept_elements rf pfx els).map
         (fun e => create_rft_ertobs_str e pfx (rft_obs_file_path rf pfx e))),
       acc.2.2.1 ++ concat_strs ((kept_elements rf pfx els).map
         (fun e => create_rft_gendata_str e pfx out)),
       acc.2.2.2 ++ (kept_elements rf pfx els).flatMap
         (fun e => (write_well_rft_files rf pfx e).2)) := by
  induction els generalizing acc with
  | nil => simp [kept_elements, concat_strs]
  | cons e els ih =>
    by_cases hemp : (inactivate_rows e.data).isEmpty
    · have hwf : write_well_rft_files rf pfx e = (none, []) := by
        simp [write_well_rft_files, hemp]
      have hk : kept_elements rf pfx (e :: els) = kept_elements rf pfx els := by
        simp [kept_elements, List.filter_cons, hwf]
      have hstep : write_rft_ertobs_step rf pfx out acc e = acc := by
        simp [write_rft_ertobs_step, hwf]
      rw [List.foldl_cons, hstep, ih, hk]
    · have hemp' : (inactivate_rows e.data).isEmpty = false := by
        simpa using hemp
      rcases hwf : write_well_rft_files rf pfx e with ⟨o, written⟩
      have h1 : (write_well_rft_files rf pfx e).1 = some (rft_obs_file_path rf pfx e)
          := by
        simp [write_well_rft_files, hemp']
      rw [hwf] at h1
      simp only at h1
      subst h1
      have hk : kept_elements rf pfx (e :: els) = e :: kept_elements rf pfx els := by
        simp [kept_elements, List.filter_cons, hwf]
      have hstep : write_rft_ertobs_step rf pfx out acc e =
          (acc.1 ++ [well_date_row e],
           acc.2.1 ++ create_rft_ertobs_str e pfx (rft_obs_file_path rf pfx e),
           acc.2.2.1 ++ create_rft_gendata_str e pfx out,
           acc.2.2.2 ++ (write_well_rft_files rf pfx e).2) := by
        simp [write_rft_ertobs_step, hwf, well_date_row]
      rw [List.foldl_cons, hstep, ih, hk]
      simp [concat_strs, List.append_assoc, String.append_assoc]

/-- C8: `write_rft_ertobs` keeps its three outputs referentially consistent.  With
`kept_elements` the wells for which `write_well_rft_files` returned a path, the
GENERAL_OBSERVATION string, the GEN_DATA string, the written well files and the
well/date/restart table row set each range over exactly that one list of wells. -/
theorem C8_referential_consistency (rft_dict : RftDict) (well_date_file : String)
    (parent_folder : String) :
    write_rft_ertobs rft_dict well_date_file parent_folder =
      (concat_strs ((kept_elements (parent_folder ++ "/rft") rft_dict.subtype_name
          rft_dict.elements).map
          (fun e => create_rft_ertobs_str e rft_dict.subtype_name
            (rft_obs_file_path (parent_folder ++ "/rft") rft_dict.subtype_name e))),
       concat_strs ((kept_elements (parent_folder ++ "/rft") rft_dict.subtype_name
          rft_dict.elements).map
          (fun e => create_rft_gendata_str e rft_dict.subtype_name "gendata_rft")),
       ((kept_elements (parent_folder ++ "/rft") rft_dict.subtype_name
          rft_dict.elements).flatMap
          (fun e => (write_well_rft_files (parent_folder ++ "/rft")
            rft_dict.subtype_name e).2)) ++
         [⟨well_date_file,
           write_csv_with_comment ((kept_elements (parent_folder ++ "/rft")
             rft_dict.subtype_name rft_dict.elements).map well_date_row)⟩]) := by
  simp [write_rft_ertobs, write_rft_ertobs_foldl]

/-- Folding the observation loop over entries that are all of unsupported type
returns successfully and only appends the config-name comment headers. -/
theorem ertobs_foldM_other (parent : String) (l : List Observation) (st : ErtobsState)
    (h : ∀ o ∈ l, o.cfg_type ≠ ObservationType.SUMMARY ∧
      o.cfg_type ≠ ObservationType.RFT) :
    l.foldlM (ertobs_step parent) st =
      .ok { st with
        obs_str := st.obs_str ++ concat_strs (l.map (fun o => "--\n--" ++ o.name ++ "\n")) } := by
  induction l generalizing st with
  | nil =>
    rcases st with ⟨a, b, c, d⟩
    show Except.ok (ErtobsState.mk a b c d) = _
    simp [concat_strs]
  | cons o l ih =>
    obtain ⟨h1, h2⟩ := h o (List.mem_cons_self o l)
    have hother : o.cfg_type = ObservationType.OTHER := by
      cases hc : o.cfg_type <;> simp_all
    have hstep : ertobs_step parent st o =
        .ok { st with obs_str := st.obs_str ++ ("--\n--" ++ o.name ++ "\n") } := by
      simp [ertobs_step, hother, String.append_assoc]
    have hrest : ∀ o' ∈ l, o'.cfg_type ≠ ObservationType.SUMMARY ∧
        o'.cfg_type ≠ ObservationType.RFT :=
      fun o' ho' => h o' (List.mem_cons_of_mem o ho')
    rw [List.foldlM_cons, hstep]
    show l.foldlM (ertobs_step parent) _ = _
    rw [ih _ hrest]
    simp [concat_strs, String.append_assoc]

/-- C1: an observation entry whose config type is neither SUMMARY nor RFT is skipped
without raising: its loop iteration only appends the config-name comment header,
touching neither the GEN_DATA string nor the write log; a list of only such entries
makes `write_dict_to_ertobs` return successfully with just the readme and the
observation file, which holds the banner and comment headers and hence no
SUMMARY_OBSERVATION, GENERAL_OBSERVATION or GEN_DATA declaration, and no gen-data
file is written. -/
theorem C1_unsupported_type_skipped :
    (∀ (parent : String) (st : ErtobsState) (obs : Observation),
        obs.cfg_type ≠ ObservationType.SUMMARY →
        obs.cfg_type ≠ ObservationType.RFT →
        ertobs_step parent st obs =
          .ok { st with obs_str := st.obs_str ++ "--\n--" ++ obs.name ++ "\n" }) ∧
    (∀ (env : Env) (parent : String) (pre : Option (List NamedFile))
        (obs_list : List Observation),
        (∀ o ∈ obs_list, o.cfg_type ≠ ObservationType.SUMMARY ∧
          o.cfg_type ≠ ObservationType.RFT) →
        write_dict_to_ertobs env parent pre obs_list =
          .ok ([⟨parent ++ "/readme.txt", add_time_stamp env "" "d" "--"⟩,
                ⟨parent ++ "/ert_observations.obs",
                 add_time_stamp env "" "f" "--" ++
                   concat_strs (obs_list.map (fun o => "--\n--" ++ o.name ++ "\n"))⟩],
               add_time_stamp env "" "f" "--" ++
                 concat_strs (obs_list.map (fun o => "--\n--" ++ o.name ++ "\n")))) := by
  constructor
  · intro parent st obs h1 h2
    have hother : obs.cfg_type = ObservationType.OTHER := by
      cases hc : obs.cfg_type <;> simp_all
    simp [ertobs_step, hother]
  · intro env parent pre obs_list h
    cases pre <;>
      simp [write_dict_to_ertobs, ertobs_foldM_other parent obs_list _ h, Except.map]

/-- Witness for C1 at a concrete unsupported entry and loop state. -/
theorem C1_unsupported_type_skipped_witness :
    obsOtherC.cfg_type ≠ ObservationType.SUMMARY ∧
    obsOtherC.cfg_type ≠ ObservationType.RFT ∧
    ertobs_step "p" stC obsOtherC =
      .ok { stC with obs_str := stC.obs_str ++ "--\n--" ++ obsOtherC.name ++ "\n" } :=
  ⟨by decide, by decide,
    C1_unsupported_type_skipped.1 "p" stC obsOtherC (by decide) (by decide)⟩

/-- Agreement of two observation-loop outcomes up to the banner-dependent
observation string: same error, or same gen-data, same gendata-rft string and same
written paths. -/
def StateAgree (a b : Except String ErtobsState) : Prop :=
  match a, b with
  | .ok t, .ok t' =>
    t.gen_data = t'.gen_data ∧ t.gendata_rft_str = t'.gendata_rft_str ∧
      t.files.map NamedFile.path = t'.files.map NamedFile.path
  | .error e, .error e' => e = e'
  | _, _ => False

/-- The observation loop preserves `StateAgree`: starting states that agree on
gen-data, gendata-rft string and written paths (differing at most in the collected
observation string) lead to outcomes that agree likewise. -/
theorem ertobs_foldM_agree (parent : String) (l : List Observation)
    (st st' : ErtobsState) (hg : st.gen_data = st'.gen_data)
    (hr : st.gendata_rft_str = st'.gendata_rft_str)
    (hf : st.files.map NamedFile.path = st'.files.map NamedFile.path) :
    StateAgree (l.foldlM (ertobs_step parent) st)
      (l.foldlM (ertobs_step parent) st') := by
  induction l generalizing st st' with
  | nil => exact ⟨hg, hr, hf⟩
  | cons o l ih =>
    rcases o with ⟨nm, ctype, sbt, zmp, pl⟩
    cases ctype with
    | SUMMARY =>
      cases pl with
      | summary els =>
        cases hw : write_timeseries_ertobs els with
        | error e =>
          simp only [List.foldlM_cons, ertobs_step, hw, Except.map]
          exact rfl
        | ok s =>
          simp only [List.foldlM_cons, ertobs_step, hw, Except.map]
          show StateAgree (l.foldlM (ertobs_step parent) _)
            (l.foldlM (ertobs_step parent) _)
          exact ih _ _ hg hr hf
      | rft els =>
        simp only [List.foldlM_cons, ertobs_step]
        exact rfl
      | other =>
        simp only [List.foldlM_cons, ertobs_step]
        exact rfl
    | RFT =>
      cases pl with
      | rft els =>
        simp only [List.foldlM_cons, ertobs_step]
        show StateAgree (l.foldlM (ertobs_step parent) _)
          (l.foldlM (ertobs_step parent) _)
        refine ih _ _ ?_ ?_ ?_
        · simp [hg]
        · simp [hr]
        · simp [hf]
      | summary els =>
        simp only [List.foldlM_cons, ertobs_step]
        exact rfl
      | other =>
        simp only [List.foldlM_cons, ertobs_step]
        exact rfl
    | OTHER =>
      simp only [List.foldlM_cons, ertobs_step]
      show StateAgree (l.foldlM (ertobs_step parent) _)
        (l.foldlM (ertobs_step parent) _)
      exact ih _ _ hg hr hf

/-- The written paths of `write_dict_to_ertobs` do not depend on the banner
environment or on the prior directory contents. -/
theorem write_dict_paths_env (env env' : Env) (parent : String)
    (obs_list : List Observation) :
    result_paths (write_dict_to_ertobs env parent none obs_list) =
      result_paths (write_dict_to_ertobs env' parent none obs_list) := by
  have hagree := ertobs_foldM_agree parent obs_list
    ⟨add_time_stamp env "" "f" "--", "", "",
      [⟨parent ++ "/readme.txt", add_time_stamp env "" "d" "--"⟩]⟩
    ⟨add_time_stamp env' "" "f" "--", "", "",
      [⟨parent ++ "/readme.txt", add_time_stamp env' "" "d" "--"⟩]⟩
    rfl rfl rfl
  simp only [write_dict_to_ertobs, List.nil_append]
  rcases ha : obs_list.foldlM (ertobs_step parent)
      ⟨add_time_stamp env "" "f" "--", "", "",
        [⟨parent ++ "/readme.txt", add_time_stamp env "" "d" "--"⟩]⟩ with e | t <;>
    rcases hb : obs_list.foldlM (ertobs_step parent)
        ⟨add_time_stamp env' "" "f" "--", "", "",
          [⟨parent ++ "/readme.txt", add_time_stamp env' "" "d" "--"⟩]⟩ with e' | t' <;>
    rw [ha, hb] at hagree <;> simp [StateAgree] at hagree
  · simp [result_paths, Except.map, hagree]
  · obtain ⟨hg, hr, hf⟩ := hagree
    simp only [result_paths, Except.map]
    rw [hg]
    by_cases hgd : t'.gen_data = "" <;> simp [hgd, hf]

/-- C5: `write_dict_to_ertobs` unconditionally recreates its destination: the result
(write log and returned string) is independent of whatever the directory held
before, a successful run re-run over its own output reproduces it exactly
(idempotent recreation), and the set of written paths does not even depend on the
user/timestamp environment of the two runs. -/
theorem C5_destination_recreated :
    (∀ (env : Env) (parent : String) (pre pre' : Option (List NamedFile))
        (obs_list : List Observation),
        write_dict_to_ertobs env parent pre obs_list =
          write_dict_to_ertobs env parent pre' obs_list) ∧
    (∀ (env : Env) (parent : String) (pre : Option (List NamedFile))
        (obs_list : List Observation) (files : List NamedFile) (s : String),
        write_dict_to_ertobs env parent pre obs_list = .ok (files, s) →
        write_dict_to_ertobs env parent (some files) obs_list = .ok (files, s)) ∧
    (∀ (env env' : Env) (parent : String) (pre pre' : Option (List NamedFile))
        (obs_list : List Observation),
        result_paths (write_dict_to_ertobs env parent pre obs_list) =
          result_paths (write_dict_to_ertobs env' parent pre' obs_list)) := by
  have hpre : ∀ (env : Env) (parent : String) (pre pre' : Option (List NamedFile))
      (obs_list : List Observation),
      write_dict_to_ertobs env parent pre obs_list =
        write_dict_to_ertobs env parent pre' obs_list := by
    intro env parent pre pre' obs_list
    cases pre <;> cases pre' <;> rfl
  refine ⟨hpre, ?_, ?_⟩
  · intro env parent pre obs_list files s hok
    rw [hpre env parent (some files) pre obs_list, hok]
  · intro env env' parent pre pre' obs_list
    rw [hpre env parent pre none obs_list, hpre env' parent pre' none obs_list]
    exact write_dict_paths_env env env' parent obs_list

/-- The files a run over an empty observation list writes. -/
def filesEmptyRun : List NamedFile :=
  [⟨"p/readme.txt", add_time_stamp envC "" "d" "--"⟩,
   ⟨"p/ert_observations.obs", add_time_stamp envC "" "f" "--"⟩]

/-- Witness for C5: a run over its own output directory reproduces it. -/
theorem C5_destination_recreated_witness :
    write_dict_to_ertobs envC "p" none [] =
      .ok (filesEmptyRun, add_time_stamp envC "" "f" "--") ∧
    write_dict_to_ertobs envC "p" (some filesEmptyRun) [] =
      .ok (filesEmptyRun, add_time_stamp envC "" "f" "--") := by
  have h1 : write_dict_to_ertobs envC "p" none [] =
      .ok (filesEmptyRun, add_time_stamp envC "" "f" "--") := rfl
  exact ⟨h1, C5_destination_recreated.2.1 envC "p" none [] filesEmptyRun
    (add_time_stamp envC "" "f" "--") h1⟩

/-- A `filterMap` keeps exactly the entries on which the function succeeds. -/
theorem length_filterMap_isSome (f : α → Option β) (l : List α) :
    (l.filterMap f).length = (l.filter (fun a => (f a).isSome)).length := by
  induction l with
  | nil => rfl
  | cons a l ih =>
    cases h : f a <;> simp [List.filterMap_cons, List.filter_cons, h, ih]

/-- C4: `merge_rft_ertobs` keeps every observed row (the merged table has one row per
observation); whenever an observed row's (well, order) key finds a simulated row,
the merged row carries the observed well, value and error together with the
simulated time and pressure, and its pressure is null exactly when the simulated
pressure carries the inactive sentinel -1. -/
theorem C4_merge_left_join (sim : List SimRow) (obs : List ObservedRow) :
    (merge_rft_ertobs sim obs).length = obs.length ∧
    (∀ (i : Nat) (o : ObservedRow) (s : SimRow),
        obs[i]? = some o →
        sim.find? (fun t => t.well == o.well && t.order == o.order) = some s →
        (merge_rft_ertobs sim obs)[i]? =
          some ⟨o.well, some s.time,
            if s.pressure == -1 then none else some s.pressure, o.observed, o.error⟩
          ∧
        (((merge_rft_ertobs sim obs)[i]?.map MergedRow.pressure = some none) ↔
          s.pressure = -1)) := by
  constructor
  · simp [merge_rft_ertobs]
  · intro i o s ho hs
    have hrow : (merge_rft_ertobs sim obs)[i]? =
        some ⟨o.well, some s.time,
          if s.pressure == -1 then none else some s.pressure, o.observed, o.error⟩
        := by
      simp [merge_rft_ertobs, List.getElem?_map, ho, hs]
    refine ⟨hrow, ?_⟩
    rw [hrow]
    by_cases hp : s.pressure = -1 <;> simp [hp]

/-- Three sample simulated rows; the first carries the inactive sentinel. -/
def simC : List SimRow :=
  [⟨"A", 0, "2020-01-01", -1⟩, ⟨"A", 1, "2020-02-01", 20⟩, ⟨"B", 0, "2021-01-01", 30⟩]

/-- Three sample observed rows matching `simC` on (well, order). -/
def obsC : List ObservedRow :=
  [⟨"A", 0, 15, 3⟩, ⟨"A", 1, 18, 3⟩, ⟨"B", 0, 33, 3⟩]

/-- Witness for C4: marking one simulated pressure -1 yields exactly one
null-pressure merged row. -/
theorem C4_merge_left_join_witness :
    (merge_rft_ertobs simC obsC)[0]? = some ⟨"A", some "2020-01-01", none, 15, 3⟩ ∧
    (merge_rft_ertobs simC obsC).countP (fun r => r.pressure.isNone) = 1 := by
  have h := (C4_merge_left_join simC obsC).2 0 ⟨"A", 0, 15, 3⟩ ⟨"A", 0, "2020-01-01", -1⟩
    rfl rfl
  exact ⟨h.1.trans (by decide), by decide⟩

/-- C9: observation parsing never raises: every `.obs` content yields exactly one
row per line whose first two whitespace-separated tokens are numeric (extra columns
ignored) and no row for any other line, and a stray file none of whose lines
conforms leaves the merged table unchanged. -/
theorem C9_obs_parsing_total :
    (∀ (files : List ObsFile) (stray : ObsFile) (sim : List SimRow),
        get_observations_content stray.content = [] →
        merge_rft_ertobs sim (get_observations (files ++ [stray])) =
          merge_rft_ertobs sim (get_observations files)) ∧
    (∀ content : String,
        (get_observations_content content).length =
          ((split_lines content).filter
            (fun line => (parse_obs_line line).isSome)).length) ∧
    (get_observations_content "" = [] ∧
     get_observations_content "12" = [] ∧
     get_observations_content "12  3" = [(12, 3)] ∧
     get_observations_content "hei" = [] ∧
     get_observations_content "hei hopp" = [] ∧
     get_observations_content "12 hei" = [] ∧
     get_observations_content "hei 3" = [] ∧
     get_observations_content "3 4 5" = [(3, 4)] ∧
     get_observations_content "12 -1" = [(12, -1)]) := by
  refine ⟨?_, ?_, rfl, rfl, rfl, rfl, rfl, rfl, rfl, rfl, rfl⟩
  · intro files stray sim h
    have hsplit : get_observations (files ++ [stray]) = get_observations files := by
      simp [get_observations, h]
    rw [hsplit]
  · intro content
    exact length_filterMap_isSome parse_obs_line (split_lines content)

/-- A stray observation file with unparsable content. -/
def strayFile : ObsFile := ⟨"FOO", "FOBOBAR"⟩

/-- A sample observation file with two parsable lines. -/
def obsFileA : ObsFile := ⟨"R_A2", "1 2\n3 4"⟩

/-- Witness for C9: the stray file leaves the merged table unchanged. -/
theorem C9_obs_parsing_total_witness :
    get_observations_content strayFile.content = [] ∧
    merge_rft_ertobs [] (get_observations ([obsFileA] ++ [strayFile])) =
      merge_rft_ertobs [] (get_observations [obsFileA]) :=
  ⟨rfl, C9_obs_parsing_total.1 [obsFileA] strayFile [] rfl⟩
